import Mathlib

/-! Verification of the SWW loader (`src/corelib/crayfish_sww.cpp`, function
`loadSWW`) against its natural-language specification.

The loader reads a netCDF container holding a triangular mesh plus
per-timestep fields.  We shallowly embed the loader as a pure Lean
function over an abstract model of the container file: every fallible
netCDF call (dimension/variable lookup, bulk read, strided row read) is
modelled by `Bool` presence flags and `Option`-valued data, mirroring the
success/failure return codes of the C API.  Float values are idealised as
rationals (`ℚ`); the one genuinely irrational computation — the Euclidean
norm used for momentum magnitudes — is kept as a derived function into `ℝ`.
-/

/-- The only error kind `loadSWW` ever sets (`LoadStatus::Err_UnknownFormat`). -/
inductive LoadError where
  | Err_UnknownFormat
  deriving DecidableEq, Repr

/-- Model of `LoadStatus`: `clear()` gives `mLastError = none`; a failing
load sets `mLastError = some Err_UnknownFormat`. -/
structure LoadStatus where
  mLastError : Option LoadError
  deriving DecidableEq, Repr

/-- Element topology tag; `loadSWW` only ever produces `E3T` (triangles). -/
inductive ElementType where
  | E3T
  deriving DecidableEq, Repr

/-- A mesh node: 0-based id in file order and world coordinates
(raw coordinate plus the optional ll-corner offset). -/
structure Node where
  id : ℕ
  x : ℚ
  y : ℚ
  deriving DecidableEq, Repr

/-- A mesh element: id, topology tag, and the node-index triplet `p[0..2]`
copied from the `volumes` connectivity array (as `unsigned int`, hence `ℕ`
after the 2^32 cast). -/
structure Element where
  id : ℕ
  eType : ElementType
  p : List ℕ
  deriving DecidableEq, Repr

/-- One timestep snapshot (the collaborator type `Output`, modelled from the
spec: a time value in hours, a per-node scalar array, an optional per-node
2-component vector array, and a per-element active array; `Output::init` is
modelled as allocating zero-filled buffers).  For the Momentum dataset the
stored scalar array is the per-node Euclidean norm of `valuesV`
(`float2D::length()`); since an exact square root is irrational, that array
is represented by the derived function `momentumScalar` below and `values`
is left empty for momentum outputs. -/
structure Output where
  time : ℚ
  values : List ℚ
  valuesV : List (ℚ × ℚ)
  active : List Bool
  deriving DecidableEq, Repr

/-- Dataset type tag (`DataSet::Bed | Scalar | Vector`). -/
inductive DataSetType where
  | Bed
  | Scalar
  | Vector
  deriving DecidableEq, Repr

/-- A dataset: type, name, time-varying flag, and its ordered outputs. -/
structure DataSet where
  dsType : DataSetType
  name : String
  isTimeVarying : Bool
  outputs : List Output
  deriving DecidableEq, Repr

/-- The produced mesh: nodes, elements and the datasets appended to it
(in order: Bed, Depth, optionally Momentum). -/
structure Mesh where
  nodes : List Node
  elements : List Element
  datasets : List DataSet
  deriving DecidableEq, Repr

/-- A 1-D float netCDF variable: `present` models `nc_inq_varid` succeeding,
`data = none` models `nc_get_var_float` failing on the bulk read. -/
structure NCVar1D where
  present : Bool
  data : Option (List ℚ)
  deriving DecidableEq, Repr

/-- The integer connectivity variable (`volumes`), read by `nc_get_var_int`. -/
structure NCVarInt where
  present : Bool
  data : Option (List ℤ)
  deriving DecidableEq, Repr

/-- A 2-D float variable of shape `[nTimesteps, nPoints]` (stage,
xmomentum, ymomentum), read one row per timestep by `nc_get_vars_float`;
`rows.getD t none = none` models the strided read of row `t` failing. -/
structure NCVar2D where
  present : Bool
  rows : List (Option (List ℚ))
  deriving DecidableEq, Repr

/-- Abstract model of an SWW container file as seen through the netCDF
calls `loadSWW` makes: openability, the four dimensions, the variables, and
the two optional global attributes (`none` models `nc_get_att_float`
failing, which the code ignores, leaving its 0 default). -/
structure SWWFile where
  canOpen : Bool
  hasVolumesDim : Bool
  hasVerticesDim : Bool
  hasPointsDim : Bool
  hasTimestepsDim : Bool
  nVolumes : ℕ
  nVertices : ℕ
  nPoints : ℕ
  nTimesteps : ℕ
  varX : NCVar1D
  varY : NCVar1D
  varZ : NCVar1D
  varVolumes : NCVarInt
  varTime : NCVar1D
  varStage : NCVar2D
  varXMomentum : NCVar2D
  varYMomentum : NCVar2D
  xllcorner : Option ℚ
  yllcorner : Option ℚ
  deriving DecidableEq, Repr

/-- Constant `DEPTH_THRESHOLD 0.0001` (meters), idealised as an exact rational. -/
def DEPTH_THRESHOLD : ℚ := 1 / 10000

/-- The C cast of the `int` connectivity values to `unsigned int`
(`unsigned int* pvolumes` read via `nc_get_var_int`). -/
def toU32 (v : ℤ) : ℕ := (v % (2 ^ 32 : ℤ)).toNat

/-- A default element (only used as the `getD` fallback; never reached
under the index bounds established in the theorems). -/
def dummyElement : Element := { id := 0, eType := ElementType.E3T, p := [0, 0, 0] }

/-- A default output (only used as the `getD` fallback). -/
def dummyOutput : Output := { time := 0, values := [], valuesV := [], active := [] }

/-- A default dataset (only used as the `getD` fallback). -/
def dummyDataSet : DataSet :=
  { dsType := DataSetType.Scalar, name := "", isTimeVarying := false, outputs := [] }

/-- The Depth output for timestep `t`: a fresh zero-filled buffer receives
the strided `stage` row (an unchecked read: on failure the buffer keeps its
zeros), then `values[j] -= elev[j]` turns stage into depth, and the active
flag of each element is the depth-threshold test on its three node indices.
`pz` is the raw bed elevation accessor and `elements` the mesh elements. -/
def mkDepthOutput (f : SWWFile) (pz : ℕ → ℚ) (elements : List Element)
    (times : List ℚ) (t : ℕ) : Output :=
  let stageRow : ℕ → ℚ :=
    match f.varStage.rows.getD t none with
    | some r => fun j => r.getD j 0
    | none => fun _ => 0
  let depth : List ℚ := (List.range f.nPoints).map (fun j => stageRow j - pz j)
  let dv : ℕ → ℚ := fun k => depth.getD k 0
  { time := times.getD t 0 / 3600,
    values := depth,
    valuesV := [],
    active := (List.range f.nVolumes).map (fun e =>
      let elem := elements.getD e dummyElement
      (decide (dv (elem.p.getD 0 0) > DEPTH_THRESHOLD) ||
       decide (dv (elem.p.getD 1 0) > DEPTH_THRESHOLD) ||
       decide (dv (elem.p.getD 2 0) > DEPTH_THRESHOLD))) }

/-- Contents of one momentum read buffer (`valuesX` / `valuesY`) after the
strided read for timestep `t`.  The buffers are allocated once, zero-filled
(`QVector<float>(nPoints)`), outside the timestep loop, and the reads are
unchecked: a failed read at `t` leaves the contents from timestep `t - 1`. -/
def momBuf (rows : List (Option (List ℚ))) (nPoints : ℕ) : ℕ → List ℚ
  | 0 =>
    match rows.getD 0 none with
    | some r => (List.range nPoints).map (fun j => r.getD j 0)
    | none => List.replicate nPoints 0
  | t + 1 =>
    match rows.getD (t + 1) none with
    | some r => (List.range nPoints).map (fun j => r.getD j 0)
    | none => momBuf rows nPoints t

/-- The Momentum output for timestep `t`: vector values from the two
momentum buffers, the active array copied from the Depth dataset's output
for the same `t` (`mto->active = ds->output(t)->active`).  The stored
scalar magnitudes are the derived `momentumScalar` (see `Output`). -/
def mkMomOutput (f : SWWFile) (times : List ℚ) (depthOuts : List Output)
    (t : ℕ) : Output :=
  let bx := momBuf f.varXMomentum.rows f.nPoints t
  let bys := momBuf f.varYMomentum.rows f.nPoints t
  { time := times.getD t 0 / 3600,
    values := [],
    valuesV := (List.range f.nPoints).map (fun i => (bx.getD i 0, bys.getD i 0)),
    active := (depthOuts.getD t dummyOutput).active }

/-- Modelled from the spec: `float2D::length()` (declared in
`crayfish_output.h`, not under `src/`) is the Euclidean norm of the
2-component vector, so the Momentum output's stored per-node scalar array
`mtoValues[i] = mtoValuesV[i].length()` is this map over `valuesV`. -/
noncomputable def momentumScalar (o : Output) : List ℝ :=
  o.valuesV.map (fun v => Real.sqrt ((v.1 : ℝ) ^ 2 + (v.2 : ℝ) ^ 2))

/-- The contents of the `times` buffer: `QVector<float> times(nTimesteps)`
zero-initialises, and the `nc_get_var_float` read of `time` is unchecked,
so a failed read leaves all zeros. -/
def timesOf (f : SWWFile) : List ℚ :=
  match f.varTime.data with
  | some ts => (List.range f.nTimesteps).map (fun t => ts.getD t 0)
  | none => List.replicate f.nTimesteps 0

/-- The node list: `nPoints` nodes with 0-based ids in file order and the
ll-corner offsets added to the raw coordinates. -/
def meshNodes (f : SWWFile) (xs ys : List ℚ) : List Node :=
  (List.range f.nPoints).map (fun i =>
    { id := i, x := xs.getD i 0 + f.xllcorner.getD 0, y := ys.getD i 0 + f.yllcorner.getD 0 })

/-- The element list: `nVolumes` triangles whose node-index triplet is
copied verbatim (via the `unsigned int` cast) from consecutive triplets of
the connectivity array; no bounds check is performed. -/
def meshElements (f : SWWFile) (vols : List ℤ) : List Element :=
  (List.range f.nVolumes).map (fun i =>
    { id := i, eType := ElementType.E3T,
      p := [toU32 (vols.getD (3 * i) 0), toU32 (vols.getD (3 * i + 1) 0),
            toU32 (vols.getD (3 * i + 2) 0)] })

/-- The single bed-elevation output: time 0, values copied from the raw `z`
array, all elements active (`memset(o->active.data(), 1, nVolumes)`). -/
def bedOutput (f : SWWFile) (zs : List ℚ) : Output :=
  { time := 0,
    values := (List.range f.nPoints).map (fun i => zs.getD i 0),
    valuesV := [],
    active := List.replicate f.nVolumes true }

/-- The Bed dataset. -/
def bedDs (f : SWWFile) (zs : List ℚ) : DataSet :=
  { dsType := DataSetType.Bed, name := "Bed Elevation", isTimeVarying := false,
    outputs := [bedOutput f zs] }

/-- The Depth dataset's outputs, one per timestep in loop order. -/
def depthOuts (f : SWWFile) (zs : List ℚ) (vols : List ℤ) : List Output :=
  (List.range f.nTimesteps).map
    (mkDepthOutput f (fun i => zs.getD i 0) (meshElements f vols) (timesOf f))

/-- The Depth dataset. -/
def depthDs (f : SWWFile) (zs : List ℚ) (vols : List ℤ) : DataSet :=
  { dsType := DataSetType.Scalar, name := "Depth", isTimeVarying := true,
    outputs := depthOuts f zs vols }

/-- The Momentum dataset (built only when both momentum variables are
present). -/
def momDs (f : SWWFile) (zs : List ℚ) (vols : List ℤ) : DataSet :=
  { dsType := DataSetType.Vector, name := "Momentum", isTimeVarying := true,
    outputs := (List.range f.nTimesteps).map (mkMomOutput f (timesOf f) (depthOuts f zs vols)) }

/-- The successful-path body of `loadSWW`, given the four bulk arrays that
were read without error: builds nodes, elements, the Bed dataset, the Depth
dataset (one output per timestep) and, if both momentum variables are
present, the Momentum dataset, appended in that order. -/
def buildMesh (f : SWWFile) (xs ys zs : List ℚ) (vols : List ℤ) : Mesh :=
  { nodes := meshNodes f xs ys,
    elements := meshElements f vols,
    datasets :=
      if f.varXMomentum.present && f.varYMomentum.present then
        [bedDs f zs, depthDs f zs vols, momDs f zs vols]
      else
        [bedDs f zs, depthDs f zs vols] }

/-- The failure result shared by every error exit of `loadSWW`. -/
def loadFail : Option Mesh × LoadStatus :=
  (none, { mLastError := some LoadError.Err_UnknownFormat })

/-- Shallow embedding of `loadSWW`: open the container, look up the four
dimensions and their lengths, require triangular elements, look up the six
required variables, read the four bulk mesh arrays (the only reads whose
return codes the code checks), and on success build the mesh.  The `time`,
`stage` and momentum reads are unchecked in the source and are therefore
absorbed into `buildMesh` with their failure fallbacks. -/
def loadSWW (f : SWWFile) : Option Mesh × LoadStatus :=
  if !f.canOpen then loadFail
  else if !(f.hasVolumesDim && f.hasVerticesDim && f.hasPointsDim && f.hasTimestepsDim) then
    loadFail
  else if f.nVertices ≠ 3 then loadFail
  else if !(f.varX.present && f.varY.present && f.varZ.present &&
            f.varVolumes.present && f.varTime.present && f.varStage.present) then
    loadFail
  else
    match f.varX.data, f.varY.data, f.varZ.data, f.varVolumes.data with
    | some xs, some ys, some zs, some vols =>
      (some (buildMesh f xs ys zs vols), { mLastError := none })
    | _, _, _, _ => loadFail

/-- A default mesh (only used as the `getD`/`Option.getD` fallback). -/
def dummyMesh : Mesh := { nodes := [], elements := [], datasets := [] }

/-- All the schema checks `loadSWW` performs before any bulk read: the
container opens, the four dimensions and six required variables are
present, and the mesh is triangular. -/
def schemaOk (f : SWWFile) : Prop :=
  f.canOpen = true ∧ f.hasVolumesDim = true ∧ f.hasVerticesDim = true ∧
  f.hasPointsDim = true ∧ f.hasTimestepsDim = true ∧ f.nVertices = 3 ∧
  f.varX.present = true ∧ f.varY.present = true ∧ f.varZ.present = true ∧
  f.varVolumes.present = true ∧ f.varTime.present = true ∧ f.varStage.present = true

instance (f : SWWFile) : Decidable (schemaOk f) := by unfold schemaOk; infer_instance

/-- The four bulk reads whose return codes `loadSWW` actually checks
(x, y, z, volumes) all succeed. -/
def bulkOk (f : SWWFile) : Prop :=
  f.varX.data.isSome = true ∧ f.varY.data.isSome = true ∧
  f.varZ.data.isSome = true ∧ f.varVolumes.data.isSome = true

instance (f : SWWFile) : Decidable (bulkOk f) := by unfold bulkOk; infer_instance

/-- A concrete well-formed container: the worked scenario of spec section 8
(4 nodes, two triangles `[0,1,2]` and `[0,2,3]`, one timestep at 7200 s,
flat bed, stage `[0.001, 0.001, 0.00005, 0.00005]`, no momentum). -/
def exFile : SWWFile :=
  { canOpen := true, hasVolumesDim := true, hasVerticesDim := true,
    hasPointsDim := true, hasTimestepsDim := true,
    nVolumes := 2, nVertices := 3, nPoints := 4, nTimesteps := 1,
    varX := { present := true, data := some [0, 1, 0, 1] },
    varY := { present := true, data := some [0, 0, 1, 1] },
    varZ := { present := true, data := some [0, 0, 0, 0] },
    varVolumes := { present := true, data := some [0, 1, 2, 0, 2, 3] },
    varTime := { present := true, data := some [7200] },
    varStage := { present := true, rows := [some [1/1000, 1/1000, 5/100000, 5/100000]] },
    varXMomentum := { present := false, rows := [] },
    varYMomentum := { present := false, rows := [] },
    xllcorner := none, yllcorner := none }

/-- Variant of `exFile` with both momentum variables present. -/
def exMom : SWWFile :=
  { exFile with
    varXMomentum := { present := true, rows := [some [3, 0, 0, 0]] },
    varYMomentum := { present := true, rows := [some [4, 0, 0, 0]] } }

/-- Variant of `exFile` where the bulk read of the `time` variable fails (the
variable is present, so schema validation passes, but `nc_get_var_float`
returns an error — which the code ignores). -/
def exTimeReadFails : SWWFile :=
  { exFile with varTime := { present := true, data := none } }

/-- A container with a single node but connectivity triplet `[0, 0, 5]`:
the loader performs no bounds check, so it is accepted although index 5 is
out of range.  `nTimesteps = 0` so the out-of-range index is never used to
read a buffer. -/
def exBadIndex : SWWFile :=
  { canOpen := true, hasVolumesDim := true, hasVerticesDim := true,
    hasPointsDim := true, hasTimestepsDim := true,
    nVolumes := 1, nVertices := 3, nPoints := 1, nTimesteps := 0,
    varX := { present := true, data := some [0] },
    varY := { present := true, data := some [0] },
    varZ := { present := true, data := some [0] },
    varVolumes := { present := true, data := some [0, 0, 5] },
    varTime := { present := true, data := some [] },
    varStage := { present := true, rows := [] },
    varXMomentum := { present := false, rows := [] },
    varYMomentum := { present := false, rows := [] },
    xllcorner := none, yllcorner := none }

/-- Variant of `exFile` with a non-triangular vertex count. -/
def exBadVertices : SWWFile := { exFile with nVertices := 4 }

/-- Variant of `exFile` with zero timesteps. -/
def exNoSteps : SWWFile :=
  { exMom with
    nTimesteps := 0,
    varTime := { present := true, data := some [] },
    varStage := { present := true, rows := [] } }

/-- Variant of `exFile` where the bulk read of the `x` coordinate array fails. -/
def exXReadFails : SWWFile :=
  { exFile with varX := { present := true, data := none } }


/-- Complete case analysis of `loadSWW`: either the schema checks and the
four checked bulk reads succeed and the built mesh is returned with a clear
status, or some check fails and the load returns the failure result. -/
theorem loadSWW_cases (f : SWWFile) :
    (schemaOk f ∧ ∃ xs ys zs vols, f.varX.data = some xs ∧ f.varY.data = some ys ∧
       f.varZ.data = some zs ∧ f.varVolumes.data = some vols ∧
       loadSWW f = (some (buildMesh f xs ys zs vols), { mLastError := none })) ∨
    ((¬ schemaOk f ∨ ¬ bulkOk f) ∧ loadSWW f = loadFail) := by
  unfold loadSWW
  split
  next hopen =>
    refine Or.inr ⟨Or.inl (fun hs => ?_), rfl⟩
    obtain ⟨h1, -⟩ := hs; simp_all
  next hopen =>
  split
  next hdims =>
    refine Or.inr ⟨Or.inl (fun hs => ?_), rfl⟩
    obtain ⟨-, h2, h3, h4, h5, -⟩ := hs; simp_all
  next hdims =>
  split
  next hvert =>
    refine Or.inr ⟨Or.inl (fun hs => ?_), rfl⟩
    obtain ⟨-, -, -, -, -, h6, -⟩ := hs; simp_all
  next hvert =>
  split
  next hvars =>
    refine Or.inr ⟨Or.inl (fun hs => ?_), rfl⟩
    obtain ⟨-, -, -, -, -, -, h7, h8, h9, h10, h11, h12⟩ := hs; simp_all
  next hvars =>
  split
  next xs ys zs vols hx hy hz hv =>
    refine Or.inl ⟨?_, xs, ys, zs, vols, hx, hy, hz, hv, rfl⟩
    simp at hopen hdims hvars
    have hv3 := not_ne_iff.mp hvert
    unfold schemaOk
    tauto
  next hmiss =>
    refine Or.inr ⟨Or.inr (fun hbulk => ?_), rfl⟩
    obtain ⟨h1, h2, h3, h4⟩ := hbulk
    obtain ⟨xs, hx⟩ := Option.isSome_iff_exists.mp h1
    obtain ⟨ys, hy⟩ := Option.isSome_iff_exists.mp h2
    obtain ⟨zs, hz⟩ := Option.isSome_iff_exists.mp h3
    obtain ⟨vols, hv⟩ := Option.isSome_iff_exists.mp h4
    exact hmiss xs ys zs vols hx hy hz hv

/-- When every check passes, `loadSWW` returns the built mesh and a clear
error status. -/
theorem loadSWW_success_of (f : SWWFile) (hs : schemaOk f)
    (xs ys zs : List ℚ) (vols : List ℤ)
    (hx : f.varX.data = some xs) (hy : f.varY.data = some ys)
    (hz : f.varZ.data = some zs) (hv : f.varVolumes.data = some vols) :
    loadSWW f = (some (buildMesh f xs ys zs vols), { mLastError := none }) := by
  rcases loadSWW_cases f with ⟨-, xs', ys', zs', vols', hx', hy', hz', hv', heq⟩ | ⟨hneg, -⟩
  · rw [hx] at hx'; rw [hy] at hy'; rw [hz] at hz'; rw [hv] at hv'
    cases hx'; cases hy'; cases hz'; cases hv'
    exact heq
  · rcases hneg with hneg | hneg
    · exact absurd hs hneg
    · exact absurd ⟨by simp [hx], by simp [hy], by simp [hz], by simp [hv]⟩ hneg

/-- Inversion: a returned mesh means every check passed and the mesh is the
built one. -/
theorem loadSWW_some_inv (f : SWWFile) (m : Mesh) (h : (loadSWW f).1 = some m) :
    schemaOk f ∧ ∃ xs ys zs vols, f.varX.data = some xs ∧ f.varY.data = some ys ∧
      f.varZ.data = some zs ∧ f.varVolumes.data = some vols ∧
      m = buildMesh f xs ys zs vols ∧
      loadSWW f = (some m, { mLastError := none }) := by
  rcases loadSWW_cases f with ⟨hs, xs, ys, zs, vols, hx, hy, hz, hv, heq⟩ | ⟨-, heq⟩
  · rw [heq] at h
    simp only [Option.some.injEq] at h
    subst h
    exact ⟨hs, xs, ys, zs, vols, hx, hy, hz, hv, rfl, heq⟩
  · rw [heq] at h
    simp [loadFail] at h

/-- Any failed schema check or failed checked bulk read yields the failure
result (null mesh, `Err_UnknownFormat`). -/
theorem loadSWW_fail_of (f : SWWFile) (h : ¬ schemaOk f ∨ ¬ bulkOk f) :
    loadSWW f = loadFail := by
  rcases loadSWW_cases f with ⟨hs, xs, ys, zs, vols, hx, hy, hz, hv, -⟩ | ⟨-, heq⟩
  · exfalso
    rcases h with h | h
    · exact h hs
    · exact h ⟨by simp [hx], by simp [hy], by simp [hz], by simp [hv]⟩
  · exact heq

/-- Reading a mapped range with `getD` evaluates the function, below the bound. -/
theorem getD_range_map {α : Type} (f : ℕ → α) (n i : ℕ) (d : α) (h : i < n) :
    ((List.range n).map f).getD i d = f i := by
  simp [List.getD_eq_getElem?_getD, List.getElem?_map, List.getElem?_range h]

/-- Reading `replicate` with `getD`, below the bound. -/
theorem getD_replicate_of_lt {α : Type} (a d : α) (n i : ℕ) (h : i < n) :
    (List.replicate n a).getD i d = a := by
  simp [List.getD_eq_getElem?_getD, List.getElem?_replicate, h]

/-- Reading every position of a list with `getD` reproduces the list. -/
theorem range_map_getD_self {α : Type} (zs : List α) (d : α) :
    (List.range zs.length).map (fun i => zs.getD i d) = zs := by
  apply List.ext_getElem
  · simp
  · intro i h1 h2
    simp [List.getD_eq_getElem?_getD, List.getElem?_eq_getElem h2]

/-- C8: a file whose `number_of_vertices` dimension is not 3, or which
lacks the `stage` variable, or any other required dimension or variable,
makes `loadSWW` fail with `UnknownFormat` and return no mesh. -/
theorem C8_schema_failure (f : SWWFile)
    (h : f.nVertices ≠ 3 ∨ f.varStage.present = false ∨
         f.hasVolumesDim = false ∨ f.hasVerticesDim = false ∨
         f.hasPointsDim = false ∨ f.hasTimestepsDim = false ∨
         f.varX.present = false ∨ f.varY.present = false ∨
         f.varZ.present = false ∨ f.varVolumes.present = false ∨
         f.varTime.present = false) :
    loadSWW f = (none, { mLastError := some LoadError.Err_UnknownFormat }) := by
  have hns : ¬ schemaOk f := by
    intro hs
    obtain ⟨h1, h2, h3, h4, h5, h6, h7, h8, h9, h10, h11, h12⟩ := hs
    rcases h with h | h | h | h | h | h | h | h | h | h | h <;> simp_all
  exact loadSWW_fail_of f (Or.inl hns)

/-- Witness for C8 at the concrete file with `number_of_vertices = 4`. -/
theorem C8_schema_failure_witness :
    loadSWW exBadVertices = (none, { mLastError := some LoadError.Err_UnknownFormat }) :=
  C8_schema_failure exBadVertices (Or.inl (by decide))

/-- C9: the Bed dataset's single output carries time 0.0 (`o->time = 0.0`). -/
theorem C9_bed_time_zero (f : SWWFile) (m : Mesh) (h : (loadSWW f).1 = some m) :
    ((m.datasets.getD 0 dummyDataSet).outputs.getD 0 dummyOutput).time = 0 := by
  obtain ⟨-, xs, ys, zs, vols, -, -, -, -, hm, -⟩ := loadSWW_some_inv f m h
  subst hm
  unfold buildMesh
  split <;> simp [bedDs, bedOutput]

/-- Witness for C9 at the concrete scenario file. -/
theorem C9_bed_time_zero_witness :
    ((((loadSWW exFile).1.getD dummyMesh).datasets.getD 0 dummyDataSet).outputs.getD 0
        dummyOutput).time = 0 :=
  C9_bed_time_zero exFile ((loadSWW exFile).1.getD dummyMesh) rfl

/-- C6: the Bed dataset has type Bed, name "Bed Elevation", is not
time-varying, and holds exactly one output whose per-node scalar array is
the raw `z` array unmodified and whose per-element active array is
all-true. -/
theorem C6_bed_dataset (f : SWWFile) (m : Mesh) (h : (loadSWW f).1 = some m)
    (zs : List ℚ) (hz : f.varZ.data = some zs) (hlen : zs.length = f.nPoints) :
    (m.datasets.getD 0 dummyDataSet).dsType = DataSetType.Bed ∧
    (m.datasets.getD 0 dummyDataSet).name = "Bed Elevation" ∧
    (m.datasets.getD 0 dummyDataSet).isTimeVarying = false ∧
    (m.datasets.getD 0 dummyDataSet).outputs.length = 1 ∧
    ((m.datasets.getD 0 dummyDataSet).outputs.getD 0 dummyOutput).values = zs ∧
    ((m.datasets.getD 0 dummyDataSet).outputs.getD 0 dummyOutput).active =
      List.replicate f.nVolumes true := by
  obtain ⟨-, xs, ys, zs', vols, -, -, hz', -, hm, -⟩ := loadSWW_some_inv f m h
  rw [hz] at hz'
  injection hz' with e1
  subst e1
  subst hm
  have hv : (List.range f.nPoints).map (fun i => zs.getD i 0) = zs := by
    rw [← hlen]; exact range_map_getD_self zs 0
  have hds : (buildMesh f xs ys zs vols).datasets.getD 0 dummyDataSet = bedDs f zs := by
    unfold buildMesh; split <;> rfl
  rw [hds]
  exact ⟨rfl, rfl, rfl, rfl, hv, rfl⟩

/-- Witness for C6 at the concrete scenario file. -/
theorem C6_bed_dataset_witness :
    ((((loadSWW exFile).1.getD dummyMesh).datasets.getD 0 dummyDataSet).outputs.getD 0
        dummyOutput).values = [0, 0, 0, 0] ∧
    ((((loadSWW exFile).1.getD dummyMesh).datasets.getD 0 dummyDataSet).outputs.getD 0
        dummyOutput).active = List.replicate 2 true := by
  have h := C6_bed_dataset exFile ((loadSWW exFile).1.getD dummyMesh) rfl
    [0, 0, 0, 0] rfl rfl
  exact ⟨h.2.2.2.2.1, h.2.2.2.2.2⟩

/-- C7: the mesh has `nPoints` nodes with 0-based ids in file order and
offset coordinates, and `nVolumes` triangular elements whose node indices
come directly, without reordering, from consecutive connectivity
triplets. -/
theorem C7_geometry (f : SWWFile) (m : Mesh) (h : (loadSWW f).1 = some m)
    (xs ys : List ℚ) (vols : List ℤ)
    (hx : f.varX.data = some xs) (hy : f.varY.data = some ys)
    (hv : f.varVolumes.data = some vols) :
    m.nodes.length = f.nPoints ∧ m.elements.length = f.nVolumes ∧
    (∀ i, i < f.nPoints → m.nodes.getD i { id := 0, x := 0, y := 0 } =
      { id := i, x := xs.getD i 0 + f.xllcorner.getD 0,
        y := ys.getD i 0 + f.yllcorner.getD 0 }) ∧
    (∀ e, e < f.nVolumes → m.elements.getD e dummyElement =
      { id := e, eType := ElementType.E3T,
        p := [toU32 (vols.getD (3 * e) 0), toU32 (vols.getD (3 * e + 1) 0),
              toU32 (vols.getD (3 * e + 2) 0)] }) := by
  obtain ⟨-, xs', ys', zs', vols', hx', hy', -, hv', hm, -⟩ := loadSWW_some_inv f m h
  rw [hx] at hx'; injection hx' with e1; subst e1
  rw [hy] at hy'; injection hy' with e2; subst e2
  rw [hv] at hv'; injection hv' with e3; subst e3
  subst hm
  refine ⟨by simp [buildMesh, meshNodes], by simp [buildMesh, meshElements], ?_, ?_⟩
  · intro i hi
    show (meshNodes f xs ys).getD i _ = _
    unfold meshNodes
    rw [getD_range_map _ _ _ _ hi]
  · intro e he
    show (meshElements f vols).getD e _ = _
    unfold meshElements
    rw [getD_range_map _ _ _ _ he]

/-- Witness for C7 at the concrete scenario file: the second triangle. -/
theorem C7_geometry_witness :
    ((loadSWW exFile).1.getD dummyMesh).elements.getD 1 dummyElement =
      { id := 1, eType := ElementType.E3T,
        p := [toU32 (([0, 1, 2, 0, 2, 3] : List ℤ).getD 3 0),
              toU32 (([0, 1, 2, 0, 2, 3] : List ℤ).getD 4 0),
              toU32 (([0, 1, 2, 0, 2, 3] : List ℤ).getD 5 0)] } :=
  (C7_geometry exFile ((loadSWW exFile).1.getD dummyMesh) rfl
    [0, 1, 0, 1] [0, 0, 1, 1] [0, 1, 2, 0, 2, 3] rfl rfl rfl).2.2.2 1 (by decide)

/-- The Depth output and Bed values: restated accessor — the `datasets`
list of a built mesh has the Depth dataset at position 1 in both the
momentum and no-momentum branches. -/
theorem buildMesh_datasets_getD1 (f : SWWFile) (xs ys zs : List ℚ) (vols : List ℤ) :
    (buildMesh f xs ys zs vols).datasets.getD 1 dummyDataSet = depthDs f zs vols := by
  unfold buildMesh; split <;> rfl

/-- C3: for every successfully loaded file, timestep `t` whose stage row
was read, and node `n`: the Depth dataset's value is `stage - z`, its
output's time is `rawTime[t] / 3600`, and outputs sit in increasing `t`
order (position `t` holds timestep `t`, one output per timestep). -/
theorem C3_depth_values_time (f : SWWFile) (m : Mesh) (h : (loadSWW f).1 = some m)
    (zs ts row : List ℚ) (hz : f.varZ.data = some zs) (ht : f.varTime.data = some ts)
    (t : ℕ) (htn : t < f.nTimesteps)
    (hrow : f.varStage.rows.getD t none = some row)
    (n : ℕ) (hn : n < f.nPoints) :
    (m.datasets.getD 1 dummyDataSet).name = "Depth" ∧
    (m.datasets.getD 1 dummyDataSet).outputs.length = f.nTimesteps ∧
    ((m.datasets.getD 1 dummyDataSet).outputs.getD t dummyOutput).values.getD n 0 =
      row.getD n 0 - zs.getD n 0 ∧
    ((m.datasets.getD 1 dummyDataSet).outputs.getD t dummyOutput).time =
      ts.getD t 0 / 3600 := by
  obtain ⟨-, xs, ys, zs', vols, -, -, hz', -, hm, -⟩ := loadSWW_some_inv f m h
  rw [hz] at hz'; injection hz' with e1; subst e1
  subst hm
  rw [buildMesh_datasets_getD1]
  refine ⟨rfl, by simp [depthDs, depthOuts], ?_, ?_⟩
  · show ((depthOuts f zs vols).getD t dummyOutput).values.getD n 0 = _
    unfold depthOuts
    rw [getD_range_map _ _ _ _ htn]
    unfold mkDepthOutput
    simp only [hrow]
    rw [getD_range_map _ _ _ _ hn]
  · show ((depthOuts f zs vols).getD t dummyOutput).time = _
    unfold depthOuts
    rw [getD_range_map _ _ _ _ htn]
    show (timesOf f).getD t 0 / 3600 = _
    unfold timesOf
    simp only [ht]
    rw [getD_range_map _ _ _ _ htn]

/-- Witness for C3 at the concrete scenario file, timestep 0, node 2. -/
theorem C3_depth_values_time_witness :
    ((((loadSWW exFile).1.getD dummyMesh).datasets.getD 1 dummyDataSet).outputs.getD 0
        dummyOutput).values.getD 2 0 =
      ([1/1000, 1/1000, 5/100000, 5/100000] : List ℚ).getD 2 0 -
        ([0, 0, 0, 0] : List ℚ).getD 2 0 ∧
    ((((loadSWW exFile).1.getD dummyMesh).datasets.getD 1 dummyDataSet).outputs.getD 0
        dummyOutput).time = ([7200] : List ℚ).getD 0 0 / 3600 := by
  have h := C3_depth_values_time exFile ((loadSWW exFile).1.getD dummyMesh) rfl
    [0, 0, 0, 0] [7200] [1/1000, 1/1000, 5/100000, 5/100000] rfl rfl
    0 (by decide) rfl 2 (by decide)
  exact ⟨h.2.2.1, h.2.2.2⟩

/-- C4: for every successfully loaded file, timestep and element, the
Depth output's active flag equals the threshold test
`depth[p0] > 1e-4 || depth[p1] > 1e-4 || depth[p2] > 1e-4` on the
element's three node indices, reading the same output's value array. -/
theorem C4_active_flags (f : SWWFile) (m : Mesh) (h : (loadSWW f).1 = some m)
    (t : ℕ) (htn : t < f.nTimesteps) (e : ℕ) (he : e < f.nVolumes) :
    ((m.datasets.getD 1 dummyDataSet).outputs.getD t dummyOutput).active.getD e false =
      (decide (((m.datasets.getD 1 dummyDataSet).outputs.getD t dummyOutput).values.getD
          ((m.elements.getD e dummyElement).p.getD 0 0) 0 > DEPTH_THRESHOLD) ||
       decide (((m.datasets.getD 1 dummyDataSet).outputs.getD t dummyOutput).values.getD
          ((m.elements.getD e dummyElement).p.getD 1 0) 0 > DEPTH_THRESHOLD) ||
       decide (((m.datasets.getD 1 dummyDataSet).outputs.getD t dummyOutput).values.getD
          ((m.elements.getD e dummyElement).p.getD 2 0) 0 > DEPTH_THRESHOLD)) := by
  obtain ⟨-, xs, ys, zs, vols, -, -, -, -, hm, -⟩ := loadSWW_some_inv f m h
  subst hm
  rw [buildMesh_datasets_getD1]
  have helem : (buildMesh f xs ys zs vols).elements = meshElements f vols := rfl
  rw [helem]
  have hout : (depthDs f zs vols).outputs.getD t dummyOutput =
      mkDepthOutput f (fun i => zs.getD i 0) (meshElements f vols) (timesOf f) t := by
    show (depthOuts f zs vols).getD t dummyOutput = _
    unfold depthOuts
    rw [getD_range_map _ _ _ _ htn]
  rw [hout]
  simp only [mkDepthOutput]
  rw [getD_range_map _ _ _ _ he]

/-- Witness for C4 at the concrete scenario file, timestep 0, element 1. -/
theorem C4_active_flags_witness :
    ((((loadSWW exFile).1.getD dummyMesh).datasets.getD 1 dummyDataSet).outputs.getD 0
        dummyOutput).active.getD 1 false =
      (decide (((((loadSWW exFile).1.getD dummyMesh).datasets.getD 1 dummyDataSet).outputs.getD 0
          dummyOutput).values.getD
          ((((loadSWW exFile).1.getD dummyMesh).elements.getD 1 dummyElement).p.getD 0 0) 0 >
            DEPTH_THRESHOLD) ||
       decide (((((loadSWW exFile).1.getD dummyMesh).datasets.getD 1 dummyDataSet).outputs.getD 0
          dummyOutput).values.getD
          ((((loadSWW exFile).1.getD dummyMesh).elements.getD 1 dummyElement).p.getD 1 0) 0 >
            DEPTH_THRESHOLD) ||
       decide (((((loadSWW exFile).1.getD dummyMesh).datasets.getD 1 dummyDataSet).outputs.getD 0
          dummyOutput).values.getD
          ((((loadSWW exFile).1.getD dummyMesh).elements.getD 1 dummyElement).p.getD 2 0) 0 >
            DEPTH_THRESHOLD)) :=
  C4_active_flags exFile ((loadSWW exFile).1.getD dummyMesh) rfl 0 (by decide) 1 (by decide)

/-- C10: a file that passes schema validation and the four checked bulk
reads but has `number_of_timesteps = 0` loads successfully (no error
status), and the Depth dataset (and the Momentum dataset, when the
momentum variables are present) is produced with zero outputs while still
marked time-varying. -/
theorem C10_zero_timesteps (f : SWWFile) (hs : schemaOk f)
    (xs ys zs : List ℚ) (vols : List ℤ)
    (hx : f.varX.data = some xs) (hy : f.varY.data = some ys)
    (hz : f.varZ.data = some zs) (hv : f.varVolumes.data = some vols)
    (ht0 : f.nTimesteps = 0) :
    (loadSWW f).2.mLastError = none ∧ (loadSWW f).1.isSome = true ∧
    (((loadSWW f).1.getD dummyMesh).datasets.getD 1 dummyDataSet).outputs = [] ∧
    (((loadSWW f).1.getD dummyMesh).datasets.getD 1 dummyDataSet).isTimeVarying = true ∧
    ((f.varXMomentum.present && f.varYMomentum.present) = true →
      ((loadSWW f).1.getD dummyMesh).datasets.length = 3 ∧
      (((loadSWW f).1.getD dummyMesh).datasets.getD 2 dummyDataSet).outputs = [] ∧
      (((loadSWW f).1.getD dummyMesh).datasets.getD 2 dummyDataSet).isTimeVarying = true) := by
  have hload := loadSWW_success_of f hs xs ys zs vols hx hy hz hv
  rw [hload]
  refine ⟨rfl, rfl, ?_, ?_, ?_⟩
  · rw [show (Option.getD (some (buildMesh f xs ys zs vols)) dummyMesh) =
        buildMesh f xs ys zs vols from rfl]
    rw [buildMesh_datasets_getD1]
    show depthOuts f zs vols = []
    unfold depthOuts
    rw [ht0]
    rfl
  · rw [show (Option.getD (some (buildMesh f xs ys zs vols)) dummyMesh) =
        buildMesh f xs ys zs vols from rfl]
    rw [buildMesh_datasets_getD1]
    rfl
  · intro hp
    rw [show (Option.getD (some (buildMesh f xs ys zs vols)) dummyMesh) =
        buildMesh f xs ys zs vols from rfl]
    unfold buildMesh
    rw [if_pos hp]
    refine ⟨rfl, ?_, rfl⟩
    show (List.range f.nTimesteps).map
      (mkMomOutput f (timesOf f) (depthOuts f zs vols)) = []
    rw [ht0]
    rfl

/-- Witness for C10 at the concrete zero-timestep file with momentum. -/
theorem C10_zero_timesteps_witness :
    (loadSWW exNoSteps).2.mLastError = none ∧
    (((loadSWW exNoSteps).1.getD dummyMesh).datasets.getD 1 dummyDataSet).outputs = [] ∧
    (((loadSWW exNoSteps).1.getD dummyMesh).datasets.getD 1 dummyDataSet).isTimeVarying = true ∧
    ((loadSWW exNoSteps).1.getD dummyMesh).datasets.length = 3 ∧
    (((loadSWW exNoSteps).1.getD dummyMesh).datasets.getD 2 dummyDataSet).outputs = [] ∧
    (((loadSWW exNoSteps).1.getD dummyMesh).datasets.getD 2 dummyDataSet).isTimeVarying = true := by
  have h := C10_zero_timesteps exNoSteps (by decide)
    [0, 1, 0, 1] [0, 0, 1, 1] [0, 0, 0, 0] [0, 1, 2, 0, 2, 3] rfl rfl rfl rfl rfl
  exact ⟨h.1, h.2.2.1, h.2.2.2.1, (h.2.2.2.2 rfl).1, (h.2.2.2.2 rfl).2.1, (h.2.2.2.2 rfl).2.2⟩

/-- A momentum buffer after a successful row read holds exactly that row
(regardless of earlier contents). -/
theorem momBuf_of_some (rows : List (Option (List ℚ))) (nP t : ℕ) (r : List ℚ)
    (h : rows.getD t none = some r) :
    momBuf rows nP t = (List.range nP).map (fun j => r.getD j 0) := by
  cases t with
  | zero => unfold momBuf; rw [h]
  | succ k => unfold momBuf; rw [h]

/-- C5: a Momentum dataset is produced iff both momentum variables are
present (absence is not an error); when produced, the output for timestep
`t` carries vector values read from the raw momentum rows, scalar values
equal to the Euclidean norms `sqrt(x^2 + y^2)`, and the same per-element
active array as the Depth dataset's output for the same `t`. -/
theorem C5_momentum_dataset (f : SWWFile) (m : Mesh) (h : (loadSWW f).1 = some m) :
    (loadSWW f).2.mLastError = none ∧
    ((f.varXMomentum.present && f.varYMomentum.present) = false →
      m.datasets.length = 2) ∧
    ((f.varXMomentum.present && f.varYMomentum.present) = true →
      m.datasets.length = 3 ∧
      (m.datasets.getD 2 dummyDataSet).dsType = DataSetType.Vector ∧
      (m.datasets.getD 2 dummyDataSet).name = "Momentum" ∧
      (m.datasets.getD 2 dummyDataSet).outputs.length = f.nTimesteps ∧
      (∀ t, t < f.nTimesteps →
        ((m.datasets.getD 2 dummyDataSet).outputs.getD t dummyOutput).active =
          ((m.datasets.getD 1 dummyDataSet).outputs.getD t dummyOutput).active) ∧
      (∀ t rx ry, t < f.nTimesteps →
        f.varXMomentum.rows.getD t none = some rx →
        f.varYMomentum.rows.getD t none = some ry →
        ∀ n, n < f.nPoints →
          ((m.datasets.getD 2 dummyDataSet).outputs.getD t dummyOutput).valuesV.getD n (0, 0) =
            (rx.getD n 0, ry.getD n 0) ∧
          (momentumScalar
              ((m.datasets.getD 2 dummyDataSet).outputs.getD t dummyOutput)).getD n 0 =
            Real.sqrt ((rx.getD n 0 : ℝ) ^ 2 + (ry.getD n 0 : ℝ) ^ 2))) := by
  obtain ⟨-, xs, ys, zs, vols, -, -, -, -, hm, hok⟩ := loadSWW_some_inv f m h
  subst hm
  refine ⟨by rw [hok], ?_, ?_⟩
  · intro hp
    unfold buildMesh
    rw [if_neg (by simp [hp])]
    rfl
  · intro hp
    have hds2 : (buildMesh f xs ys zs vols).datasets.getD 2 dummyDataSet =
        momDs f zs vols := by
      unfold buildMesh
      rw [if_pos hp]
      rfl
    have hlen3 : (buildMesh f xs ys zs vols).datasets.length = 3 := by
      unfold buildMesh
      rw [if_pos hp]
      rfl
    refine ⟨hlen3, by rw [hds2]; rfl, by rw [hds2]; rfl,
      by rw [hds2]; simp [momDs], ?_, ?_⟩
    · intro t htn
      rw [hds2, buildMesh_datasets_getD1]
      show (((List.range f.nTimesteps).map
          (mkMomOutput f (timesOf f) (depthOuts f zs vols))).getD t dummyOutput).active = _
      rw [getD_range_map _ _ _ _ htn]
      rfl
    · intro t rx ry htn hrx hry n hn
      rw [hds2]
      have hmo : (momDs f zs vols).outputs.getD t dummyOutput =
          mkMomOutput f (timesOf f) (depthOuts f zs vols) t := by
        show ((List.range f.nTimesteps).map
            (mkMomOutput f (timesOf f) (depthOuts f zs vols))).getD t dummyOutput = _
        rw [getD_range_map _ _ _ _ htn]
      rw [hmo]
      have hvv : (mkMomOutput f (timesOf f) (depthOuts f zs vols) t).valuesV =
          (List.range f.nPoints).map (fun i => (rx.getD i 0, ry.getD i 0)) := by
        simp only [mkMomOutput]
        rw [momBuf_of_some _ _ _ _ hrx, momBuf_of_some _ _ _ _ hry]
        apply List.map_congr_left
        intro i hi
        have hi' := List.mem_range.mp hi
        rw [getD_range_map _ _ _ _ hi', getD_range_map _ _ _ _ hi']
      constructor
      · rw [hvv, getD_range_map _ _ _ _ hn]
      · unfold momentumScalar
        rw [hvv, List.map_map]
        rw [getD_range_map _ _ _ _ hn]
        rfl

/-- Witness for C5 at the concrete momentum file, timestep 0, node 0. -/
theorem C5_momentum_dataset_witness :
    ((((loadSWW exMom).1.getD dummyMesh).datasets.getD 2 dummyDataSet).outputs.getD 0
        dummyOutput).valuesV.getD 0 (0, 0) =
      (([3, 0, 0, 0] : List ℚ).getD 0 0, ([4, 0, 0, 0] : List ℚ).getD 0 0) ∧
    (momentumScalar
        ((((loadSWW exMom).1.getD dummyMesh).datasets.getD 2 dummyDataSet).outputs.getD 0
          dummyOutput)).getD 0 0 =
      Real.sqrt ((([3, 0, 0, 0] : List ℚ).getD 0 0 : ℝ) ^ 2 +
        (([4, 0, 0, 0] : List ℚ).getD 0 0 : ℝ) ^ 2) := by
  have h := C5_momentum_dataset exMom ((loadSWW exMom).1.getD dummyMesh) rfl
  exact (h.2.2 rfl).2.2.2.2.2 0 [3, 0, 0, 0] [4, 0, 0, 0] (by decide) rfl rfl 0 (by decide)

/-- C1 counterexample: in `exTimeReadFails` the `time` variable is present
but its bulk read fails, yet `loadSWW` returns a mesh and leaves the
status clear — so a failed bulk array read at the time-axis stage does
*not* produce `UnknownFormat` with a null result, contradicting the claim. -/
theorem C1_counterexample :
    exTimeReadFails.varTime.present = true ∧ exTimeReadFails.varTime.data = none ∧
    (loadSWW exTimeReadFails).1.isSome = true ∧
    (loadSWW exTimeReadFails).2.mLastError = none :=
  ⟨rfl, rfl, rfl, rfl⟩

/-- C1 (amended): only the four mesh-array bulk reads (x, y, z, volumes)
are checked: if any of them fails, `loadSWW` sets `UnknownFormat` and
returns a null result with no partial mesh; failures of the time-axis,
per-timestep stage and per-timestep momentum reads are not detected, and
the load still succeeds with a clear status. -/
theorem C1_checked_bulk_reads (f : SWWFile) :
    ((f.varX.data = none ∨ f.varY.data = none ∨ f.varZ.data = none ∨
      f.varVolumes.data = none) →
      loadSWW f = (none, { mLastError := some LoadError.Err_UnknownFormat })) ∧
    (schemaOk f → bulkOk f →
      (loadSWW f).1.isSome = true ∧ (loadSWW f).2.mLastError = none) := by
  constructor
  · intro hnone
    refine loadSWW_fail_of f (Or.inr (fun hbulk => ?_))
    obtain ⟨h1, h2, h3, h4⟩ := hbulk
    rcases hnone with h | h | h | h <;> simp_all
  · intro hs hbulk
    obtain ⟨h1, h2, h3, h4⟩ := hbulk
    obtain ⟨xs, hx⟩ := Option.isSome_iff_exists.mp h1
    obtain ⟨ys, hy⟩ := Option.isSome_iff_exists.mp h2
    obtain ⟨zs, hz⟩ := Option.isSome_iff_exists.mp h3
    obtain ⟨vols, hv⟩ := Option.isSome_iff_exists.mp h4
    rw [loadSWW_success_of f hs xs ys zs vols hx hy hz hv]
    exact ⟨rfl, rfl⟩

/-- Witness for the amended C1: a failed x-array read fails the load, and
a file whose only read failure is the time axis still loads. -/
theorem C1_checked_bulk_reads_witness :
    loadSWW exXReadFails = (none, { mLastError := some LoadError.Err_UnknownFormat }) ∧
    (loadSWW exTimeReadFails).1.isSome = true ∧
    (loadSWW exTimeReadFails).2.mLastError = none :=
  ⟨(C1_checked_bulk_reads exXReadFails).1 (Or.inl rfl),
   (C1_checked_bulk_reads exTimeReadFails).2 (by decide) (by decide)⟩

/-- C2 counterexample: `exBadIndex` declares a single node (`nPoints = 1`)
but its connectivity triplet is `[0, 0, 5]`; the load succeeds with a
clear status and the produced element carries node index 5, which is not
in `[0, nodeCount)` — contradicting the claimed invariant. -/
theorem C2_counterexample :
    (loadSWW exBadIndex).2.mLastError = none ∧
    (loadSWW exBadIndex).1.isSome = true ∧
    ((loadSWW exBadIndex).1.getD dummyMesh).nodes.length = 1 ∧
    (((loadSWW exBadIndex).1.getD dummyMesh).elements.getD 0 dummyElement).p.getD 2 0 = 5 := by
  refine ⟨rfl, rfl, rfl, ?_⟩
  decide

/-- C2 (amended): element node indices are copied verbatim from the
connectivity array with no bounds check, so the invariant that every
element's 3 node indices lie in `[0, nodeCount)` holds exactly when the
file's connectivity values (as `unsigned int`) are below `nPoints`; under
that hypothesis every loaded element's indices are in range. -/
theorem C2_indices_in_range (f : SWWFile) (m : Mesh) (h : (loadSWW f).1 = some m)
    (vols : List ℤ) (hv : f.varVolumes.data = some vols)
    (hbound : ∀ k, k < 3 * f.nVolumes → toU32 (vols.getD k 0) < f.nPoints) :
    m.nodes.length = f.nPoints ∧
    ∀ e, e ∈ m.elements → e.p.length = 3 ∧ ∀ q, q ∈ e.p → q < m.nodes.length := by
  obtain ⟨-, xs, ys, zs, vols', -, -, -, hv', hm, -⟩ := loadSWW_some_inv f m h
  rw [hv] at hv'; injection hv' with e1; subst e1
  subst hm
  have hlen : (buildMesh f xs ys zs vols).nodes.length = f.nPoints := by
    simp [buildMesh, meshNodes]
  refine ⟨hlen, ?_⟩
  intro e he
  have he' : e ∈ meshElements f vols := he
  unfold meshElements at he'
  rw [List.mem_map] at he'
  obtain ⟨i, hi, rfl⟩ := he'
  have hi' : i < f.nVolumes := List.mem_range.mp hi
  refine ⟨rfl, ?_⟩
  intro q hq
  rw [hlen]
  simp only [List.mem_cons, List.not_mem_nil, or_false] at hq
  rcases hq with rfl | rfl | rfl
  · exact hbound _ (by omega)
  · exact hbound _ (by omega)
  · exact hbound _ (by omega)

/-- Witness for the amended C2 at the concrete scenario file: the last
node index of the second triangle is within `[0, nodeCount)`. -/
theorem C2_indices_in_range_witness :
    (((loadSWW exFile).1.getD dummyMesh).elements.getD 1 dummyElement).p.getD 2 0 <
      ((loadSWW exFile).1.getD dummyMesh).nodes.length := by
  have h := C2_indices_in_range exFile ((loadSWW exFile).1.getD dummyMesh) rfl
    [0, 1, 2, 0, 2, 3] rfl (by decide)
  refine (h.2 (((loadSWW exFile).1.getD dummyMesh).elements.getD 1 dummyElement)
    (by decide)).2 _ (by decide)
